import Mathlib

/-!
Shallow embedding of the `ai-structured-invoice-extract` repository:
- `src/lib/types.ts` — Zod schemas for the three document variants and the
  classification result, embedded as Lean structures plus executable parsers
  over a JSON-like value type (zod parse = the structured-output coercion).
- `src/unnamed/part_000` (`text-analysis` server module) — prompt templates,
  the three extraction chains, and the stage functions `detectDocumentType`,
  `summarizeDocument`, `extractDocumentData`. The remote LLM is modelled as
  an oracle (`RemoteModel`); every stage function also returns the list of
  remote requests it issued, so "no remote call is made" is provable.
- `src/unnamed/part_001` (`OCRAnalyzer` component) — the coordinator state
  machine: session state, handlers, the bounded history list, and the
  localStorage persistence effect.
-/

/-- JSON-like values, the shape of a structured response from the remote
text-generation capability before schema validation. -/
inductive Value where
  | vStr : String → Value
  | vNum : Rat → Value
  | vBool : Bool → Value
  | vArr : List Value → Value
  | vObj : List (String × Value) → Value
deriving Repr

/-- Field lookup in a JSON object (first binding wins, as in a JS object). -/
def getField (fields : List (String × Value)) (key : String) : Option Value :=
  fields.lookup key

/-- Coerce a JSON value to a string (zod `z.string()`). -/
def asStr : Value → Option String
  | .vStr s => some s
  | _ => none

/-- Coerce a JSON value to a number (zod `z.number()`). -/
def asNum : Value → Option Rat
  | .vNum x => some x
  | _ => none

/-- Required string field. -/
def reqStr (fields : List (String × Value)) (key : String) : Option String :=
  (getField fields key).bind asStr

/-- Required numeric field. -/
def reqNum (fields : List (String × Value)) (key : String) : Option Rat :=
  (getField fields key).bind asNum

/-- Optional string field (zod `z.string().optional()`): absent is fine,
present must be a string. -/
def optStr (fields : List (String × Value)) (key : String) :
    Option (Option String) :=
  match getField fields key with
  | none => some none
  | some v => (asStr v).map some

/-- Optional numeric field (zod `z.number().optional()`). -/
def optNum (fields : List (String × Value)) (key : String) :
    Option (Option Rat) :=
  match getField fields key with
  | none => some none
  | some v => (asNum v).map some

/-- `LineItemSchema` from src/lib/types.ts. -/
structure LineItem where
  description : String
  quantity : Option Rat
  unitPrice : Option Rat
  totalPrice : Rat
  vatRate : Option Rat
  vatAmount : Option Rat
deriving Repr, DecidableEq

/-- Seller/buyer party object inside `BaseDocumentSchema`. -/
structure Party where
  name : String
  registrationNumber : Option String
  vatNumber : Option String
  address : Option String
deriving Repr, DecidableEq

/-- The shared fields of `BaseDocumentSchema`. -/
structure BaseDocument where
  documentNumber : String
  date : String
  seller : Party
  buyer : Party
  totalAmount : Rat
  currency : String
deriving Repr, DecidableEq

/-- `paymentDetails` object of `InvoiceSchema`. -/
structure PaymentDetails where
  bankAccount : Option String
  bankName : Option String
  reference : Option String
deriving Repr, DecidableEq

/-- `InvoiceSchema` variant fields (documentType literal "invoice" is the tag). -/
structure Invoice where
  base : BaseDocument
  lineItems : List LineItem
  subtotal : Rat
  vatAmount : Rat
  dueDate : Option String
  paymentDetails : Option PaymentDetails
deriving Repr, DecidableEq

/-- `DeliveryNoteSchema` variant fields. -/
structure DeliveryNote where
  base : BaseDocument
  lineItems : List LineItem
  deliveryDate : Option String
  relatedInvoice : Option String
deriving Repr, DecidableEq

/-- `ReceiptSchema` variant fields. -/
structure Receipt where
  base : BaseDocument
  lineItems : List LineItem
  paymentMethod : Option String
  cashierName : Option String
deriving Repr, DecidableEq

/-- The tagged union of the three extraction schemas (spec: DocumentRecord). -/
inductive DocumentRecord where
  | invoice : Invoice → DocumentRecord
  | deliveryNote : DeliveryNote → DocumentRecord
  | receipt : Receipt → DocumentRecord
deriving Repr, DecidableEq

/-- `DocumentTypeSchema` from src/lib/types.ts: documentType restricted to the
three enum values, confidence an unconstrained number, reasoning a string. -/
structure ClassificationResult where
  documentType : String
  confidence : Rat
  reasoning : String
deriving Repr, DecidableEq

/-- zod parse for the seller/buyer party object. -/
def parseParty (v : Value) : Option Party :=
  match v with
  | .vObj fs => do
      let name ← reqStr fs "name"
      let registrationNumber ← optStr fs "registrationNumber"
      let vatNumber ← optStr fs "vatNumber"
      let address ← optStr fs "address"
      some ⟨name, registrationNumber, vatNumber, address⟩
  | _ => none

/-- zod parse for `LineItemSchema`. -/
def parseLineItem (v : Value) : Option LineItem :=
  match v with
  | .vObj fs => do
      let description ← reqStr fs "description"
      let quantity ← optNum fs "quantity"
      let unitPrice ← optNum fs "unitPrice"
      let totalPrice ← reqNum fs "totalPrice"
      let vatRate ← optNum fs "vatRate"
      let vatAmount ← optNum fs "vatAmount"
      some ⟨description, quantity, unitPrice, totalPrice, vatRate, vatAmount⟩
  | _ => none

/-- zod parse for the `BaseDocumentSchema` fields of an object. -/
def parseBaseFields (fs : List (String × Value)) : Option BaseDocument := do
  let documentNumber ← reqStr fs "documentNumber"
  let date ← reqStr fs "date"
  let seller ← (getField fs "seller").bind parseParty
  let buyer ← (getField fs "buyer").bind parseParty
  let totalAmount ← reqNum fs "totalAmount"
  let currency ← reqStr fs "currency"
  some ⟨documentNumber, date, seller, buyer, totalAmount, currency⟩

/-- zod parse for a `z.array(LineItemSchema)` field. -/
def parseLineItems (fs : List (String × Value)) : Option (List LineItem) :=
  match getField fs "lineItems" with
  | some (.vArr xs) => xs.mapM parseLineItem
  | _ => none

/-- zod parse for the optional `paymentDetails` object of `InvoiceSchema`. -/
def parsePaymentDetails (fs : List (String × Value)) :
    Option (Option PaymentDetails) :=
  match getField fs "paymentDetails" with
  | none => some none
  | some (.vObj pfs) => do
      let bankAccount ← optStr pfs "bankAccount"
      let bankName ← optStr pfs "bankName"
      let reference ← optStr pfs "reference"
      some (some ⟨bankAccount, bankName, reference⟩)
  | some _ => none

/-- zod parse for `InvoiceSchema` (base fields extended with the invoice
fields; the `documentType` literal must be "invoice"). -/
def parseInvoice (v : Value) : Option Invoice :=
  match v with
  | .vObj fs => do
      let tag ← reqStr fs "documentType"
      if tag = "invoice" then
        let base ← parseBaseFields fs
        let lineItems ← parseLineItems fs
        let subtotal ← reqNum fs "subtotal"
        let vatAmount ← reqNum fs "vatAmount"
        let dueDate ← optStr fs "dueDate"
        let paymentDetails ← parsePaymentDetails fs
        some ⟨base, lineItems, subtotal, vatAmount, dueDate, paymentDetails⟩
      else none
  | _ => none

/-- zod parse for `DeliveryNoteSchema`. -/
def parseDeliveryNote (v : Value) : Option DeliveryNote :=
  match v with
  | .vObj fs => do
      let tag ← reqStr fs "documentType"
      if tag = "deliveryNote" then
        let base ← parseBaseFields fs
        let lineItems ← parseLineItems fs
        let deliveryDate ← optStr fs "deliveryDate"
        let relatedInvoice ← optStr fs "relatedInvoice"
        some ⟨base, lineItems, deliveryDate, relatedInvoice⟩
      else none
  | _ => none

/-- zod parse for `ReceiptSchema`. -/
def parseReceipt (v : Value) : Option Receipt :=
  match v with
  | .vObj fs => do
      let tag ← reqStr fs "documentType"
      if tag = "receipt" then
        let base ← parseBaseFields fs
        let lineItems ← parseLineItems fs
        let paymentMethod ← optStr fs "paymentMethod"
        let cashierName ← optStr fs "cashierName"
        some ⟨base, lineItems, paymentMethod, cashierName⟩
      else none
  | _ => none

/-- zod parse for `DocumentTypeSchema`: documentType must be one of the three
enum values; confidence is any number — the schema carries no range check. -/
def parseClassification (v : Value) : Option ClassificationResult :=
  match v with
  | .vObj fs => do
      let documentType ← reqStr fs "documentType"
      if documentType = "invoice" ∨ documentType = "deliveryNote" ∨
          documentType = "receipt" then
        let confidence ← reqNum fs "confidence"
        let reasoning ← reqStr fs "reasoning"
        some ⟨documentType, confidence, reasoning⟩
      else none
  | _ => none

/-- The document type detection prompt template (`documentTypePrompt` in the
text-analysis module), with its single `{text}` template variable. -/
def documentTypePrompt : String :=
  "\nYou are a document analysis expert specializing in Latvian business documents.\nAnalyze the following OCR text and determine the document type.\n\nDocument types:\n- Invoice (rēķins): Contains billing information, payment terms, and usually has line items with prices.\n- Delivery Note (pavadzīme): Documents goods being delivered, may reference an invoice, focuses on items delivered.\n- Receipt (čeks): Typically shorter, issued at point of sale, often has a simpler format than invoices.\n\nOCR Text:\n{text}\n\nDetermine the document type based on the content, structure, and any explicit mentions.\nIf the document is ambiguous, look for key indicators:\n- Invoices typically mention payment terms, due dates, and have \"Rēķins\" or \"Invoice\" in the title.\n- Delivery notes focus on delivered items and may mention \"Pavadzīme\" or \"Delivery Note\".\n- Receipts are usually shorter, from retail establishments, and may mention \"Čeks\" or \"Receipt\".\n\nProvide your analysis in the requested format.\n"

/-- The summary prompt template (`documentSummaryPrompt`), with `{documentType}`
and `{text}` template variables. -/
def documentSummaryPrompt : String :=
  "\nYou are a document summarization expert.\nProvide a concise summary of the following {documentType} document.\n\nOCR Text:\n{text}\n\nFocus on the key information relevant to this type of document:\n- For invoices: Focus on parties involved, total amounts, payment terms, and key dates.\n- For delivery notes: Focus on items delivered, delivery dates, and parties involved.\n- For receipts: Focus on the merchant, purchased items, and total amounts.\n\nProvide a concise summary in 3-5 sentences.\n"

/-- `baseExtractionPromptTemplate`: the shared extraction guideline template
with a `{documentType}` placeholder substituted per category and a `{text}`
template variable. -/
def baseExtractionPromptTemplate : String :=
  "\nYou are a document data extraction expert specializing in Latvian business documents.\nExtract structured information from the following {documentType} OCR text.\n\nOCR Text:\n{text}\n\nGuidelines for extraction:\n1. Reconstruct the document structure, especially tables and line items.\n2. For tables, identify column headers and align values correctly.\n3. Validate data integrity (e.g., check if quantity × price = total).\n4. For dates, use YYYY-MM-DD format.\n5. For numbers, extract as numeric values (without currency symbols).\n6. Pay special attention to distinguishing between seller and buyer information.\n7. For Latvian documents, look for terms like \"Pārdevējs\" (Seller) and \"Pircējs\" (Buyer).\n8. VAT may be referred to as \"PVN\" in Latvian documents.\n\nExtract the information in the requested structured format.\n"

/-- `invoiceExtractionPrompt = baseExtractionPromptTemplate.replace(\"\x7bdocumentType\x7d\", \"invoice\")`. -/
def invoiceExtractionPrompt : String :=
  baseExtractionPromptTemplate.replace "{documentType}" "invoice"

/-- `deliveryNoteExtractionPrompt`, with documentType substituted by "delivery note". -/
def deliveryNoteExtractionPrompt : String :=
  baseExtractionPromptTemplate.replace "{documentType}" "delivery note"

/-- `receiptExtractionPrompt`, with documentType substituted by "receipt". -/
def receiptExtractionPrompt : String :=
  baseExtractionPromptTemplate.replace "{documentType}" "receipt"

/-- Which schema a structured-output request is bound to
(`model.withStructuredOutput(...)`). -/
inductive SchemaTag where
  | documentTypeTag
  | invoiceTag
  | deliveryNoteTag
  | receiptTag
deriving Repr, DecidableEq

/-- One request issued to the remote text-generation capability: either a
structured-output call (rendered prompt plus target schema) or a plain model
call returning free text (the summary chain). -/
inductive LLMRequest where
  | structured : String → SchemaTag → LLMRequest
  | plain : String → LLMRequest
deriving Repr, DecidableEq

/-- The remote LLM, modelled as an oracle: a structured-output call yields a
raw JSON-like value (validated locally against the bound schema, as
`withStructuredOutput` does) or a transport error; a plain call yields the
message content or a transport error. -/
structure RemoteModel where
  structuredResponse : String → SchemaTag → Except String Value
  plainResponse : String → Except String String

/-- An extraction chain (`RunnableSequence.from([prompt, model.withStructuredOutput(schema)])`):
a prompt template paired with the schema its structured output is bound to. -/
structure ExtractionChain where
  prompt : String
  schema : SchemaTag
deriving Repr, DecidableEq

/-- `invoiceExtractionChain`: invoice prompt, output bound to `InvoiceSchema`. -/
def invoiceExtractionChain : ExtractionChain :=
  ⟨invoiceExtractionPrompt, .invoiceTag⟩

/-- `deliveryNoteExtractionChain`: delivery-note prompt, output bound to
`DeliveryNoteSchema`. -/
def deliveryNoteExtractionChain : ExtractionChain :=
  ⟨deliveryNoteExtractionPrompt, .deliveryNoteTag⟩

/-- `receiptExtractionChain`: receipt prompt, output bound to `ReceiptSchema`. -/
def receiptExtractionChain : ExtractionChain :=
  ⟨receiptExtractionPrompt, .receiptTag⟩

/-- Rendering a prompt template on invoke: substitute the `{text}` variable. -/
def renderText (template ocrText : String) : String :=
  template.replace "{text}" ocrText

/-- Errors a stage function can propagate: a failed remote call or
non-conformant structured output (spec: ExternalServiceError), or the
`throw new Error` on an unrecognized documentType in `extractDocumentData`
(spec: UnsupportedCategoryError). -/
inductive StageError where
  | external : String → StageError
  | unsupportedCategory : String → StageError
deriving Repr, DecidableEq

/-- The human-readable message carried by a stage error; the unsupported
category case mirrors the thrown `Unsupported document type: ...` message. -/
def StageError.message : StageError → String
  | .external m => m
  | .unsupportedCategory c => "Unsupported document type: " ++ c

/-- `detectDocumentType` from the text-analysis module: render the detection
prompt, call the model with structured output bound to `DocumentTypeSchema`,
and return the classification fields unchanged. Also returns the list of
remote requests issued. -/
def detectDocumentType (m : RemoteModel) (ocrText : String) :
    Except StageError ClassificationResult × List LLMRequest :=
  let prompt := renderText documentTypePrompt ocrText
  (match m.structuredResponse prompt .documentTypeTag with
   | .error e => .error (.external e)
   | .ok v =>
     match parseClassification v with
     | none => .error (.external "Failed to coerce model output to DocumentTypeSchema")
     | some r =>
       .ok { documentType := r.documentType, confidence := r.confidence,
             reasoning := r.reasoning },
   [.structured prompt .documentTypeTag])

/-- `summarizeDocument`: render the summary prompt with the document type and
text, call the plain model, return its content as a string. -/
def summarizeDocument (m : RemoteModel) (ocrText documentType : String) :
    Except StageError String × List LLMRequest :=
  let prompt := renderText (documentSummaryPrompt.replace "{documentType}" documentType) ocrText
  (match m.plainResponse prompt with
   | .error e => .error (.external e)
   | .ok content => .ok content,
   [.plain prompt])

/-- `extractDocumentData`: dispatch on the documentType string to the matching
extraction chain; any other value throws `Unsupported document type` without
calling the remote capability. Each chain validates the structured output
against its own schema and yields the matching `DocumentRecord` variant. -/
def extractDocumentData (m : RemoteModel) (ocrText documentType : String) :
    Except StageError DocumentRecord × List LLMRequest :=
  match documentType with
  | "invoice" =>
    let prompt := renderText invoiceExtractionChain.prompt ocrText
    (match m.structuredResponse prompt invoiceExtractionChain.schema with
     | .error e => .error (.external e)
     | .ok v =>
       match parseInvoice v with
       | none => .error (.external "Failed to coerce model output to InvoiceSchema")
       | some inv => .ok (.invoice inv),
     [.structured prompt invoiceExtractionChain.schema])
  | "deliveryNote" =>
    let prompt := renderText deliveryNoteExtractionChain.prompt ocrText
    (match m.structuredResponse prompt deliveryNoteExtractionChain.schema with
     | .error e => .error (.external e)
     | .ok v =>
       match parseDeliveryNote v with
       | none => .error (.external "Failed to coerce model output to DeliveryNoteSchema")
       | some dn => .ok (.deliveryNote dn),
     [.structured prompt deliveryNoteExtractionChain.schema])
  | "receipt" =>
    let prompt := renderText receiptExtractionChain.prompt ocrText
    (match m.structuredResponse prompt receiptExtractionChain.schema with
     | .error e => .error (.external e)
     | .ok v =>
       match parseReceipt v with
       | none => .error (.external "Failed to coerce model output to ReceiptSchema")
       | some rc => .ok (.receipt rc),
     [.structured prompt receiptExtractionChain.schema])
  | _ => (.error (.unsupportedCategory documentType), [])

/-- `DocumentTypeResult` / accumulated `AnalysisResults` of the OCRAnalyzer
component: the three optionally-populated stage outputs. -/
structure AnalysisResults where
  documentType : Option ClassificationResult
  summary : Option String
  extractedData : Option DocumentRecord
deriving Repr, DecidableEq

/-- The empty results object (what spreading a null `results` produces). -/
def emptyResults : AnalysisResults := ⟨none, none, none⟩

/-- One history entry: the truncated input text and the `Date.now()` timestamp. -/
structure HistoryEntry where
  text : String
  timestamp : Nat
deriving Repr, DecidableEq

/-- The OCRAnalyzer component state: the useState hooks of the coordinator. -/
structure State where
  inputText : String
  isDetectingType : Bool
  isSummarizing : Bool
  isExtractingData : Bool
  results : Option AnalysisResults
  error : Option String
  history : List HistoryEntry
  activeTab : String
deriving Repr, DecidableEq

/-- Validation message for empty input. -/
def emptyInputMsg : String := "Please enter some text to analyze"

/-- Precondition message when no classification exists yet. -/
def preconditionMsg : String := "Please detect document type first"

/-- Stage failure message of the detect handler. -/
def detectFailMsg : String :=
  "An error occurred during document type detection. Please try again."

/-- Stage failure message of the summarize handler. -/
def summarizeFailMsg : String :=
  "An error occurred during document summarization. Please try again."

/-- Stage failure message of the extract handler. -/
def extractFailMsg : String :=
  "An error occurred during data extraction. Please try again."

/-- Stage failure message of the process-all handler. -/
def processAllFailMsg : String :=
  "An error occurred during document processing. Please try again."

/-- Model of `String.prototype.trim`: strip leading and trailing whitespace.
(`!inputText.trim()` in the handlers is the check that this result is empty.) -/
def jsTrim (s : String) : String :=
  ⟨((s.data.dropWhile Char.isWhitespace).reverse.dropWhile Char.isWhitespace).reverse⟩

/-- `inputText.substring(0, 100) + (inputText.length > 100 ? "..." : "")`:
the truncated text stored in a history entry. -/
def truncateText (s : String) : String :=
  s.take 100 ++ (if 100 < s.length then "..." else "")

/-- Prepend the new entry and keep at most 5 (`[newEntry, ...history].slice(0, 5)`). -/
def pushHistory (e : HistoryEntry) (h : List HistoryEntry) : List HistoryEntry :=
  (e :: h).take 5

/-- `handleDetectDocumentType`: reject blank input locally; otherwise call the
detect stage, merge the classification into the results object, push a history
entry and switch to the results tab on success, or surface the stage message on
failure. Returns the updated state and the remote requests issued. -/
def handleDetectDocumentType (m : RemoteModel) (now : Nat) (s : State) :
    State × List LLMRequest :=
  if jsTrim s.inputText = "" then
    ({ s with error := some emptyInputMsg }, [])
  else
    match detectDocumentType m s.inputText with
    | (.ok dt, calls) =>
      ({ s with error := none, isDetectingType := false,
                results := some { (s.results.getD emptyResults) with documentType := some dt },
                history := pushHistory ⟨truncateText s.inputText, now⟩ s.history,
                activeTab := "results" }, calls)
    | (.error _, calls) =>
      ({ s with error := some detectFailMsg, isDetectingType := false }, calls)

/-- `handleSummarizeDocument`: reject with the precondition message when no
classification exists; otherwise call the summary stage and merge the summary
into the results object, or surface the stage message on failure. -/
def handleSummarizeDocument (m : RemoteModel) (s : State) :
    State × List LLMRequest :=
  match s.results with
  | none => ({ s with error := some preconditionMsg }, [])
  | some r =>
    match r.documentType with
    | none => ({ s with error := some preconditionMsg }, [])
    | some dt =>
      match summarizeDocument m s.inputText dt.documentType with
      | (.ok content, calls) =>
        ({ s with error := none, isSummarizing := false,
                  results := some { r with summary := some content } }, calls)
      | (.error _, calls) =>
        ({ s with error := some summarizeFailMsg, isSummarizing := false }, calls)

/-- `handleExtractDocumentData`: reject with the precondition message when no
classification exists; otherwise call the extract stage and merge the record
into the results object, or surface the stage message on failure. -/
def handleExtractDocumentData (m : RemoteModel) (s : State) :
    State × List LLMRequest :=
  match s.results with
  | none => ({ s with error := some preconditionMsg }, [])
  | some r =>
    match r.documentType with
    | none => ({ s with error := some preconditionMsg }, [])
    | some dt =>
      match extractDocumentData m s.inputText dt.documentType with
      | (.ok rec, calls) =>
        ({ s with error := none, isExtractingData := false,
                  results := some { r with extractedData := some rec } }, calls)
      | (.error _, calls) =>
        ({ s with error := some extractFailMsg, isExtractingData := false }, calls)

/-- `handleProcessAll`: reject blank input locally; otherwise run detect,
summarize and extract strictly in sequence (each replacing/merging the results
object as the source does), pushing the history entry and switching tabs only
after all three stages succeed; any stage failure surfaces the processing
message and clears the in-flight flags. -/
def handleProcessAll (m : RemoteModel) (now : Nat) (s : State) :
    State × List LLMRequest :=
  if jsTrim s.inputText = "" then
    ({ s with error := some emptyInputMsg }, [])
  else
    match detectDocumentType m s.inputText with
    | (.error _, c1) =>
      ({ s with error := some processAllFailMsg, isDetectingType := false,
                isSummarizing := false, isExtractingData := false }, c1)
    | (.ok dt, c1) =>
      match summarizeDocument m s.inputText dt.documentType with
      | (.error _, c2) =>
        ({ s with error := some processAllFailMsg,
                  results := some { documentType := some dt, summary := none,
                                    extractedData := none },
                  isDetectingType := false, isSummarizing := false,
                  isExtractingData := false }, c1 ++ c2)
      | (.ok content, c2) =>
        match extractDocumentData m s.inputText dt.documentType with
        | (.error _, c3) =>
          ({ s with error := some processAllFailMsg,
                    results := some { documentType := some dt,
                                      summary := some content,
                                      extractedData := none },
                    isDetectingType := false, isSummarizing := false,
                    isExtractingData := false }, c1 ++ c2 ++ c3)
        | (.ok rec, c3) =>
          ({ s with error := none,
                    results := some { documentType := some dt,
                                      summary := some content,
                                      extractedData := some rec },
                    history := pushHistory ⟨truncateText s.inputText, now⟩ s.history,
                    activeTab := "results",
                    isDetectingType := false, isSummarizing := false,
                    isExtractingData := false }, c1 ++ c2 ++ c3)

/-- `handleClear`: reset the input text, results, error and active tab;
the history list and in-flight flags are not touched. -/
def handleClear (s : State) : State :=
  { s with inputText := "", results := none, error := none, activeTab := "input" }

/-- `loadFromHistory`: load a history entry text as the input and reset
results and error. -/
def loadFromHistory (text : String) (s : State) : State :=
  { s with inputText := text, results := none, error := none }

/-- A user-triggered operation on the coordinator. Detect and process-all carry
the `Date.now()` timestamp read when recording the history entry. -/
inductive Op where
  | detect : Nat → Op
  | summarize : Op
  | extract : Op
  | processAll : Nat → Op
  | clear : Op
  | clearHistory : Op
  | loadHistoryEntry : String → Op
  | setInput : String → Op
deriving Repr, DecidableEq

/-- One coordinator step: dispatch an operation to its handler. -/
def step (m : RemoteModel) (op : Op) (s : State) : State × List LLMRequest :=
  match op with
  | .detect now => handleDetectDocumentType m now s
  | .summarize => handleSummarizeDocument m s
  | .extract => handleExtractDocumentData m s
  | .processAll now => handleProcessAll m now s
  | .clear => (handleClear s, [])
  | .clearHistory => ({ s with history := [] }, [])
  | .loadHistoryEntry t => (loadFromHistory t s, [])
  | .setInput t => ({ s with inputText := t }, [])

/-- Run a sequence of operations from a state. -/
def run (m : RemoteModel) : List Op → State → State
  | [], s => s
  | op :: rest, s => run m rest (step m op s).fst

/-- The persistent local history store (localStorage under the fixed key),
holding the parsed form of the stored JSON array when present. -/
def Store := Option (List HistoryEntry)

/-- The persistence effect: `if (history.length > 0) localStorage.setItem(...)` —
the store is written only when the in-memory list is non-empty. -/
def persistHistory (h : List HistoryEntry) (st : Store) : Store :=
  if 0 < h.length then some h else st

/-- Session start: the component mounts with empty state and loads the saved
history from the store when present. -/
def initState (st : Store) : State :=
  { inputText := "", isDetectingType := false, isSummarizing := false,
    isExtractingData := false, results := none, error := none,
    history := st.getD [], activeTab := "input" }

/-- The coordinator together with the persistent store; after every step the
persistence effect runs on the current history list. -/
structure System where
  ui : State
  store : Store

/-- One system step: the coordinator step followed by the persistence effect. -/
def sysStep (m : RemoteModel) (op : Op) (sys : System) : System :=
  let s := (step m op sys.ui).fst
  ⟨s, persistHistory s.history sys.store⟩

/-- The spec-level coordinator states. -/
inductive CoordState where
  | idle
  | detecting
  | summarizing
  | extracting
  | failed
  | complete
deriving Repr, DecidableEq

/-- The spec-level state the component is in: an in-flight flag dominates,
then a surfaced error (Failed), then a populated session (Complete), else Idle. -/
def coordState (s : State) : CoordState :=
  if s.isDetectingType then .detecting
  else if s.isSummarizing then .summarizing
  else if s.isExtractingData then .extracting
  else if s.error.isSome then .failed
  else if s.results.isSome then .complete
  else .idle

/-- All in-flight flags are down (true between any two user-triggered steps:
each handler lowers its flags in its `finally`). -/
def flagsIdle (s : State) : Prop :=
  s.isDetectingType = false ∧ s.isSummarizing = false ∧ s.isExtractingData = false

/-- A conformant `DocumentTypeSchema` response value. -/
def sampleClassificationValue : Value :=
  .vObj [("documentType", .vStr "invoice"), ("confidence", .vNum 1),
         ("reasoning", .vStr "title mentions invoice")]

/-- The classification the sample detection value parses to. -/
def sampleClassification : ClassificationResult :=
  ⟨"invoice", 1, "title mentions invoice"⟩

/-- A conformant `InvoiceSchema` response value. -/
def sampleInvoiceValue : Value :=
  .vObj [("documentType", .vStr "invoice"),
         ("documentNumber", .vStr "INV-1"),
         ("date", .vStr "2024-01-02"),
         ("seller", .vObj [("name", .vStr "S")]),
         ("buyer", .vObj [("name", .vStr "B")]),
         ("totalAmount", .vNum 121),
         ("currency", .vStr "EUR"),
         ("lineItems", .vArr [.vObj [("description", .vStr "item"),
                                     ("totalPrice", .vNum 121)]]),
         ("subtotal", .vNum 100),
         ("vatAmount", .vNum 21)]

/-- The invoice record the sample invoice value parses to. -/
def sampleInvoice : Invoice :=
  ⟨⟨"INV-1", "2024-01-02", ⟨"S", none, none, none⟩, ⟨"B", none, none, none⟩,
    121, "EUR"⟩,
   [⟨"item", none, none, 121, none, none⟩], 100, 21, none, none⟩

/-- A conformant `DeliveryNoteSchema` response value. -/
def sampleDeliveryNoteValue : Value :=
  .vObj [("documentType", .vStr "deliveryNote"),
         ("documentNumber", .vStr "DN-1"),
         ("date", .vStr "2024-01-03"),
         ("seller", .vObj [("name", .vStr "S")]),
         ("buyer", .vObj [("name", .vStr "B")]),
         ("totalAmount", .vNum 50),
         ("currency", .vStr "EUR"),
         ("lineItems", .vArr [])]

/-- The delivery note the sample delivery-note value parses to. -/
def sampleDeliveryNote : DeliveryNote :=
  ⟨⟨"DN-1", "2024-01-03", ⟨"S", none, none, none⟩, ⟨"B", none, none, none⟩,
    50, "EUR"⟩, [], none, none⟩

/-- A conformant `ReceiptSchema` response value. -/
def sampleReceiptValue : Value :=
  .vObj [("documentType", .vStr "receipt"),
         ("documentNumber", .vStr "R-1"),
         ("date", .vStr "2024-01-04"),
         ("seller", .vObj [("name", .vStr "Shop")]),
         ("buyer", .vObj [("name", .vStr "C")]),
         ("totalAmount", .vNum 7),
         ("currency", .vStr "EUR"),
         ("lineItems", .vArr [])]

/-- The receipt the sample receipt value parses to. -/
def sampleReceipt : Receipt :=
  ⟨⟨"R-1", "2024-01-04", ⟨"Shop", none, none, none⟩, ⟨"C", none, none, none⟩,
    7, "EUR"⟩, [], none, none⟩

/-- An oracle that answers every request with a conformant value. -/
def okModel : RemoteModel where
  structuredResponse := fun _ tag =>
    match tag with
    | .documentTypeTag => .ok sampleClassificationValue
    | .invoiceTag => .ok sampleInvoiceValue
    | .deliveryNoteTag => .ok sampleDeliveryNoteValue
    | .receiptTag => .ok sampleReceiptValue
  plainResponse := fun _ => .ok "A short summary."

/-- An oracle for which every remote call fails. -/
def failModel : RemoteModel where
  structuredResponse := fun _ _ => .error "service unavailable"
  plainResponse := fun _ => .error "service unavailable"

/-- An oracle whose structured calls succeed but whose plain (summary) call
fails: detection succeeds, summarization fails. -/
def summaryFailModel : RemoteModel where
  structuredResponse := okModel.structuredResponse
  plainResponse := fun _ => .error "service unavailable"

/-- An oracle whose detection response carries a confidence of 2 — conformant
to `DocumentTypeSchema`, which carries no range check. -/
def overconfidentModel : RemoteModel where
  structuredResponse := fun _ _ =>
    .ok (.vObj [("documentType", .vStr "invoice"), ("confidence", .vNum 2),
                ("reasoning", .vStr "certain")])
  plainResponse := fun _ => .ok "A short summary."

/-- A state with a given input text and no results yet, with empty history. -/
def stateWithInput (text : String) : State :=
  { initState none with inputText := text }

/-- A state holding a classification for "invoice", ready for summarize/extract. -/
def stateWithClassification : State :=
  { stateWithInput "Rēķins Nr. 123" with
    results := some { documentType := some sampleClassification,
                      summary := none, extractedData := none } }

/-- The timestamp an operation records in the history, when it records one. -/
def opTime : Op → Option Nat
  | .detect now => some now
  | .processAll now => some now
  | _ => none

/-- History entries are ordered most-recent-first: timestamps are
non-increasing from head to tail. -/
def HistSorted (h : List HistoryEntry) : Prop :=
  List.Pairwise (fun a b => b.timestamp ≤ a.timestamp) h

/-- All timestamps in the list are at most `t`. -/
def TimeBound (t : Nat) (h : List HistoryEntry) : Prop :=
  ∀ e ∈ h, e.timestamp ≤ t

/-- The history invariant at clock value `t`: at most 5 entries, ordered
most-recent-first, all stamped no later than `t`. -/
def HistInv (t : Nat) (s : State) : Prop :=
  s.history.length ≤ 5 ∧ HistSorted s.history ∧ TimeBound t s.history

/-- The operations are issued in chronological order: each recorded
timestamp is no earlier than the clock so far. -/
def OpsChrono : Nat → List Op → Prop
  | _, [] => True
  | t, op :: rest =>
    match opTime op with
    | none => OpsChrono t rest
    | some now => t ≤ now ∧ OpsChrono now rest

theorem step_flagsIdle (m : RemoteModel) (op : Op) (s : State)
    (h : flagsIdle s) : flagsIdle (step m op s).fst := by
  obtain ⟨h1, h2, h3⟩ := h
  cases op <;>
    simp only [step, handleDetectDocumentType, handleSummarizeDocument,
      handleExtractDocumentData, handleProcessAll, handleClear,
      loadFromHistory] <;>
    (repeat' split) <;>
    simp_all [flagsIdle]

theorem run_flagsIdle (m : RemoteModel) (ops : List Op) (s : State)
    (h : flagsIdle s) : flagsIdle (run m ops s) := by
  induction ops generalizing s with
  | nil => exact h
  | cons op rest ih => exact ih _ (step_flagsIdle m op s h)

theorem step_history_cases (m : RemoteModel) (op : Op) (s : State) :
    (step m op s).fst.history = s.history ∨ (step m op s).fst.history = [] ∨
    ∃ txt now, opTime op = some now ∧
      (step m op s).fst.history = pushHistory ⟨txt, now⟩ s.history := by
  cases op <;>
    simp only [step, handleDetectDocumentType, handleSummarizeDocument,
      handleExtractDocumentData, handleProcessAll, handleClear,
      loadFromHistory, opTime] <;>
    (repeat' split) <;>
    first
      | exact .inl rfl
      | exact .inl trivial
      | exact .inr (.inl rfl)
      | exact .inr (.inl trivial)
      | exact .inr (.inr ⟨_, _, rfl, rfl⟩)

theorem pushHistory_inv (e : HistoryEntry) (h : List HistoryEntry) (t : Nat)
    (hsort : HistSorted h) (hbound : TimeBound t h)
    (hnow : t ≤ e.timestamp) :
    (pushHistory e h).length ≤ 5 ∧ HistSorted (pushHistory e h) ∧
      TimeBound e.timestamp (pushHistory e h) := by
  refine ⟨?_, ?_, ?_⟩
  · simp [pushHistory]
  · have hs : HistSorted (e :: h) := by
      refine List.Pairwise.cons ?_ hsort
      intro b hb
      exact le_trans (hbound b hb) hnow
    exact List.Pairwise.sublist (List.take_sublist 5 (e :: h)) hs
  · intro b hb
    have hb' : b ∈ e :: h := (List.take_sublist 5 (e :: h)).mem hb
    rcases List.mem_cons.mp hb' with hbe | hbh
    · exact hbe ▸ le_refl _
    · exact le_trans (hbound b hbh) hnow

theorem run_histInv (m : RemoteModel) : ∀ (ops : List Op) (t : Nat) (s : State),
    HistInv t s → OpsChrono t ops → ∃ t', HistInv t' (run m ops s) := by
  intro ops
  induction ops with
  | nil => exact fun t s hinv _ => ⟨t, hinv⟩
  | cons op rest ih =>
    intro t s hinv hchrono
    obtain ⟨hlen, hsort, hbound⟩ := hinv
    have hstep := step_history_cases m op s
    simp only [run]
    rcases hop : opTime op with _ | now
    · have hchrono' : OpsChrono t rest := by
        simpa only [OpsChrono, hop] using hchrono
      refine ih t _ ?_ hchrono'
      rcases hstep with he | he | ⟨txt, now, hnow, _⟩
      · exact ⟨by rw [he]; exact hlen, by rw [he]; exact hsort,
          by intro b hb; rw [he] at hb; exact hbound b hb⟩
      · refine ⟨by simp [he], ?_, ?_⟩
        · rw [he]; exact List.Pairwise.nil
        · intro b hb; rw [he] at hb; simp at hb
      · rw [hop] at hnow; exact absurd hnow (by simp)
    · have h2 : t ≤ now ∧ OpsChrono now rest := by
        simpa only [OpsChrono, hop] using hchrono
      refine ih now _ ?_ h2.2
      rcases hstep with he | he | ⟨txt, now2, hnow2, he⟩
      · refine ⟨by rw [he]; exact hlen, ?_, ?_⟩
        · rw [he]; exact hsort
        · intro b hb; rw [he] at hb
          exact le_trans (hbound b hb) h2.1
      · refine ⟨by simp [he], ?_, ?_⟩
        · rw [he]; exact List.Pairwise.nil
        · intro b hb; rw [he] at hb; simp at hb
      · rw [hop] at hnow2
        have hnn : now2 = now := by injection hnow2.symm
        subst hnn
        have := pushHistory_inv ⟨txt, now2⟩ s.history t hsort hbound h2.1
        exact ⟨by rw [he]; exact this.1, by rw [he]; exact this.2.1,
          by intro b hb; rw [he] at hb; exact this.2.2 b hb⟩

/-- Claim C1: for each of the three category values, `extractDocumentData`
issues exactly one remote request through that category's schema-bound chain
(invoice → InvoiceSchema, deliveryNote → DeliveryNoteSchema, receipt →
ReceiptSchema), and any successful result is that category's DocumentRecord
variant — it never falls back to another variant's shape. -/
theorem extract_dispatch_per_category (m : RemoteModel) (text : String) :
    ((extractDocumentData m text "invoice").snd =
        [.structured (renderText invoiceExtractionChain.prompt text)
          invoiceExtractionChain.schema] ∧
      ∀ r, (extractDocumentData m text "invoice").fst = .ok r →
        ∃ inv, r = .invoice inv) ∧
    ((extractDocumentData m text "deliveryNote").snd =
        [.structured (renderText deliveryNoteExtractionChain.prompt text)
          deliveryNoteExtractionChain.schema] ∧
      ∀ r, (extractDocumentData m text "deliveryNote").fst = .ok r →
        ∃ dn, r = .deliveryNote dn) ∧
    ((extractDocumentData m text "receipt").snd =
        [.structured (renderText receiptExtractionChain.prompt text)
          receiptExtractionChain.schema] ∧
      ∀ r, (extractDocumentData m text "receipt").fst = .ok r →
        ∃ rc, r = .receipt rc) := by
  refine ⟨⟨rfl, ?_⟩, ⟨rfl, ?_⟩, ⟨rfl, ?_⟩⟩ <;>
  · intro r hr
    simp only [extractDocumentData] at hr
    split at hr
    · exact absurd hr (by simp)
    · split at hr
      · exact absurd hr (by simp)
      · cases hr; exact ⟨_, rfl⟩

/-- Witness for C1 at a concrete oracle and input: each category's successful
extraction yields that category's variant. -/
theorem extract_dispatch_per_category_witness :
    (∃ inv, DocumentRecord.invoice sampleInvoice = .invoice inv) ∧
    (∃ dn, DocumentRecord.deliveryNote sampleDeliveryNote = .deliveryNote dn) ∧
    (∃ rc, DocumentRecord.receipt sampleReceipt = .receipt rc) :=
  ⟨(extract_dispatch_per_category okModel "doc").1.2 (.invoice sampleInvoice) rfl,
   (extract_dispatch_per_category okModel "doc").2.1.2
     (.deliveryNote sampleDeliveryNote) rfl,
   (extract_dispatch_per_category okModel "doc").2.2.2 (.receipt sampleReceipt) rfl⟩

/-- Claim C2: for every category value outside the three known ones,
`extractDocumentData` fails with the unsupported-category error and issues no
remote request. -/
theorem unsupported_category_no_remote_call (m : RemoteModel)
    (text cat : String) (h1 : cat ≠ "invoice") (h2 : cat ≠ "deliveryNote")
    (h3 : cat ≠ "receipt") :
    extractDocumentData m text cat = (.error (.unsupportedCategory cat), []) := by
  unfold extractDocumentData
  split <;> simp_all

/-- Witness for C2 at the concrete category "contract". -/
theorem unsupported_category_no_remote_call_witness :
    extractDocumentData failModel "doc" "contract" =
      (.error (.unsupportedCategory "contract"), []) :=
  unsupported_category_no_remote_call failModel "doc" "contract"
    (by decide) (by decide) (by decide)

/-- Claim C3: when no classification exists in the session (no results object,
or one without a documentType), the summarize and extract handlers reject the
request with the precondition message ("Please detect document type first",
the PreconditionError surface) and issue no remote call; the rest of the
state is unchanged. -/
theorem no_classification_precondition_reject (m : RemoteModel) (s : State)
    (h : s.results = none ∨ ∃ r, s.results = some r ∧ r.documentType = none) :
    handleSummarizeDocument m s = ({ s with error := some preconditionMsg }, []) ∧
    handleExtractDocumentData m s = ({ s with error := some preconditionMsg }, []) := by
  rcases h with h | ⟨r, hr, hdt⟩ <;>
    constructor <;>
    simp_all [handleSummarizeDocument, handleExtractDocumentData]

/-- Witness for C3 at a concrete state with no results object. -/
theorem no_classification_precondition_reject_witness :
    handleSummarizeDocument failModel (stateWithInput "text") =
      ({ stateWithInput "text" with error := some preconditionMsg }, []) ∧
    handleExtractDocumentData failModel (stateWithInput "text") =
      ({ stateWithInput "text" with error := some preconditionMsg }, []) :=
  no_classification_precondition_reject failModel (stateWithInput "text")
    (.inl rfl)

/-- Claim C5: for every empty or whitespace-only input text, both the detect
handler and the process-all handler reject locally with the validation
message and issue no remote call; the rest of the state is unchanged. -/
theorem blank_input_rejected_locally (m : RemoteModel) (now : Nat) (s : State)
    (h : jsTrim s.inputText = "") :
    handleDetectDocumentType m now s = ({ s with error := some emptyInputMsg }, []) ∧
    handleProcessAll m now s = ({ s with error := some emptyInputMsg }, []) := by
  constructor <;> simp [handleDetectDocumentType, handleProcessAll, h]

/-- Witness for C5 at a concrete whitespace-only input. -/
theorem blank_input_rejected_locally_witness :
    handleDetectDocumentType failModel 0 (stateWithInput "  \n ") =
      ({ stateWithInput "  \n " with error := some emptyInputMsg }, []) ∧
    handleProcessAll failModel 0 (stateWithInput "  \n ") =
      ({ stateWithInput "  \n " with error := some emptyInputMsg }, []) :=
  blank_input_rejected_locally failModel 0 (stateWithInput "  \n ") rfl

/-- Claim C9: when a single-stage summarize or extract call fails, the handler
produces exactly the prior state with the stage failure message set and the
in-flight flag down — the input text, classification, summary and record are
all left unchanged (stage failure is atomic for the session). -/
theorem stage_failure_atomic (m : RemoteModel) (s : State)
    (r : AnalysisResults) (dt : ClassificationResult)
    (hr : s.results = some r) (hdt : r.documentType = some dt) :
    (∀ e calls,
      summarizeDocument m s.inputText dt.documentType = (.error e, calls) →
      handleSummarizeDocument m s =
        ({ s with error := some summarizeFailMsg, isSummarizing := false }, calls)) ∧
    (∀ e calls,
      extractDocumentData m s.inputText dt.documentType = (.error e, calls) →
      handleExtractDocumentData m s =
        ({ s with error := some extractFailMsg, isExtractingData := false }, calls)) := by
  constructor <;> intro e calls hfail <;>
    simp_all [handleSummarizeDocument, handleExtractDocumentData]

/-- Witness for C9: with an unreachable remote service, both failing handlers
leave the populated session untouched apart from the error message. -/
theorem stage_failure_atomic_witness :
    handleSummarizeDocument failModel stateWithClassification =
      ({ stateWithClassification with
          error := some summarizeFailMsg,
          isSummarizing := false },
       [.plain (renderText (documentSummaryPrompt.replace "{documentType}" "invoice")
          "Rēķins Nr. 123")]) ∧
    handleExtractDocumentData failModel stateWithClassification =
      ({ stateWithClassification with
          error := some extractFailMsg,
          isExtractingData := false },
       [.structured (renderText invoiceExtractionChain.prompt "Rēķins Nr. 123")
          invoiceExtractionChain.schema]) :=
  ⟨(stage_failure_atomic failModel stateWithClassification _ _ rfl rfl).1
      (.external "service unavailable") _ rfl,
   (stage_failure_atomic failModel stateWithClassification _ _ rfl rfl).2
      (.external "service unavailable") _ rfl⟩

/-- Claim C10: clearing the in-memory history never writes the persistent
store — the write runs only for a non-empty list — so the stored entries are
unchanged and a fresh session still loads them. -/
theorem clear_history_no_store_write (m : RemoteModel) (sys : System) :
    (sysStep m .clearHistory sys).ui.history = [] ∧
    (sysStep m .clearHistory sys).store = sys.store ∧
    (initState (sysStep m .clearHistory sys).store).history =
      (initState sys.store).history := by
  refine ⟨rfl, ?_, ?_⟩ <;> simp [sysStep, step, persistHistory, initState]

/-- Claim C6: from any prior coordinator state reachable between
user-triggered operations (in-flight flags are down there, since every
handler lowers them before returning), clearing the session resets the
classification, summary and record to absent, clears the error and input,
and returns the coordinator to Idle. -/
theorem clear_resets_to_idle (m : RemoteModel) (ops : List Op) (s0 : State)
    (h : flagsIdle s0) :
    (handleClear (run m ops s0)).results = none ∧
    (handleClear (run m ops s0)).error = none ∧
    (handleClear (run m ops s0)).inputText = "" ∧
    coordState (handleClear (run m ops s0)) = .idle := by
  obtain ⟨h1, h2, h3⟩ := run_flagsIdle m ops s0 h
  refine ⟨rfl, rfl, rfl, ?_⟩
  simp [coordState, handleClear, h1, h2, h3]

/-- Witness for C6: a concrete run (a successful detection) followed by clear
is back at Idle with an empty session. -/
theorem clear_resets_to_idle_witness :
    (handleClear (run okModel [.setInput "Rēķins", .detect 4] (initState none))).results = none ∧
    (handleClear (run okModel [.setInput "Rēķins", .detect 4] (initState none))).error = none ∧
    (handleClear (run okModel [.setInput "Rēķins", .detect 4] (initState none))).inputText = "" ∧
    coordState (handleClear (run okModel [.setInput "Rēķins", .detect 4] (initState none))) = .idle :=
  clear_resets_to_idle okModel [.setInput "Rēķins", .detect 4] (initState none)
    ⟨rfl, rfl, rfl⟩

/-- Claim C4: after any chronologically-issued sequence of operations from a
state satisfying the history invariant, the history list still has at most 5
entries and is ordered most-recent-first; and pushing onto a full list of 5
keeps the new entry at the head and evicts the oldest (the last) entry. -/
theorem history_bounded_ordered_evicts (m : RemoteModel) (ops : List Op)
    (s0 : State) (t0 : Nat) (hinv : HistInv t0 s0)
    (hchrono : OpsChrono t0 ops) :
    ((run m ops s0).history.length ≤ 5 ∧ HistSorted (run m ops s0).history) ∧
    ∀ (e : HistoryEntry) (h : List HistoryEntry), h.length = 5 →
      pushHistory e h = e :: h.dropLast := by
  constructor
  · obtain ⟨t', h1, h2, _⟩ := run_histInv m ops t0 s0 hinv hchrono
    exact ⟨h1, h2⟩
  · intro e h hl
    rw [List.dropLast_eq_take, hl]
    rfl

/-- Witness for C4: a concrete chronological run of two detections. -/
theorem history_bounded_ordered_evicts_witness :
    (((run okModel [.setInput "Rēķins", .detect 3, .detect 8] (initState none)).history.length ≤ 5 ∧
      HistSorted (run okModel [.setInput "Rēķins", .detect 3, .detect 8] (initState none)).history) ∧
    ∀ (e : HistoryEntry) (h : List HistoryEntry), h.length = 5 →
      pushHistory e h = e :: h.dropLast) :=
  history_bounded_ordered_evicts okModel [.setInput "Rēķins", .detect 3, .detect 8]
    (initState none) 0
    ⟨by simp [initState], by exact List.Pairwise.nil, by intro e he; simp [initState] at he⟩
    (by simp [OpsChrono, opTime])

/-- Counterexample to claim C7 as stated: in process-all mode the detection
stage succeeds on this input (first conjunct), yet because the subsequent
summarize stage fails, no entry is written to the history list or the
persistent store (the write sits after all three stages in the source). -/
theorem processAll_detect_success_no_history_write :
    (detectDocumentType summaryFailModel "Rēķins Nr. 123").fst =
      .ok sampleClassification ∧
    (handleProcessAll summaryFailModel 5
        (stateWithInput "Rēķins Nr. 123")).fst.history = [] ∧
    (sysStep summaryFailModel (.processAll 5)
        ⟨stateWithInput "Rēķins Nr. 123", none⟩).store = none :=
  ⟨rfl, rfl, rfl⟩

/-- Claim C7 as amended: a successful single-stage detection always writes a
new history entry; in process-all mode the entry is written once all three
stages succeed. The entry text is the first 100 characters of the input,
followed by the ellipsis marker exactly when the input is longer than 100
characters; a non-empty history is persisted to the store. -/
theorem history_write_on_success (m : RemoteModel) (now : Nat) (s : State) :
    (∀ dt calls, ¬ jsTrim s.inputText = "" →
      detectDocumentType m s.inputText = (.ok dt, calls) →
      (handleDetectDocumentType m now s).fst.history =
        pushHistory ⟨truncateText s.inputText, now⟩ s.history) ∧
    (∀ dt c1 content c2 rec c3, ¬ jsTrim s.inputText = "" →
      detectDocumentType m s.inputText = (.ok dt, c1) →
      summarizeDocument m s.inputText dt.documentType = (.ok content, c2) →
      extractDocumentData m s.inputText dt.documentType = (.ok rec, c3) →
      (handleProcessAll m now s).fst.history =
        pushHistory ⟨truncateText s.inputText, now⟩ s.history) ∧
    (∀ text : String,
      truncateText text = text.take 100 ++ "..." ↔ 100 < text.length) ∧
    (∀ text : String, text.length ≤ 100 → truncateText text = text) ∧
    (∀ (e : HistoryEntry) (h : List HistoryEntry) (st : Store),
      persistHistory (pushHistory e h) st = some (pushHistory e h)) := by
  refine ⟨?_, ?_, ?_, ?_, ?_⟩
  · intro dt calls hne hdet
    simp [handleDetectDocumentType, hne, hdet]
  · intro dt c1 content c2 rec c3 hne hdet hsum hext
    simp [handleProcessAll, hne, hdet, hsum, hext]
  · intro text
    constructor
    · intro heq
      by_contra hle
      rw [truncateText, if_neg hle] at heq
      have hlen := congrArg String.length heq
      rw [String.length_append, String.length_append] at hlen
      have h0 : ("" : String).length = 0 := rfl
      have h3 : ("..." : String).length = 3 := rfl
      omega
    · intro hgt
      rw [truncateText, if_pos hgt]
  · intro text h
    rw [truncateText, if_neg (by omega)]
    have htake : text.take 100 = text := by
      apply String.ext
      rw [String.data_take]
      exact List.take_of_length_le h
    rw [htake]
    simp
  · intro e h st
    simp [persistHistory, pushHistory]

/-- Witness for the amended C7 at concrete inputs. -/
theorem history_write_on_success_witness :
    (handleDetectDocumentType okModel 7 (stateWithInput "Rēķins Nr. 123")).fst.history =
      pushHistory ⟨truncateText "Rēķins Nr. 123", 7⟩
        (stateWithInput "Rēķins Nr. 123").history ∧
    (handleProcessAll okModel 7 (stateWithInput "Rēķins Nr. 123")).fst.history =
      pushHistory ⟨truncateText "Rēķins Nr. 123", 7⟩
        (stateWithInput "Rēķins Nr. 123").history ∧
    truncateText "ab" = "ab" ∧
    persistHistory (pushHistory ⟨"ab", 7⟩ []) none = some (pushHistory ⟨"ab", 7⟩ []) :=
  ⟨(history_write_on_success okModel 7 (stateWithInput "Rēķins Nr. 123")).1
      sampleClassification _ (by decide) rfl,
   (history_write_on_success okModel 7 (stateWithInput "Rēķins Nr. 123")).2.1
      sampleClassification _ "A short summary." _ (.invoice sampleInvoice) _
      (by decide) rfl rfl rfl,
   (history_write_on_success okModel 7 (stateWithInput "ab")).2.2.2.1 "ab" (by decide),
   (history_write_on_success okModel 7 (stateWithInput "ab")).2.2.2.2 ⟨"ab", 7⟩ [] none⟩

/-- Counterexample to claim C8 as stated: `DocumentTypeSchema` carries no
range check, so a conformant remote response with confidence 2 passes through
`detectDocumentType` unchanged — the returned confidence lies outside [0,1]. -/
theorem detect_confidence_out_of_range :
    (detectDocumentType overconfidentModel "x").fst =
      .ok ⟨"invoice", 2, "certain"⟩ ∧ ¬ ((2 : Rat) ≤ 1) :=
  ⟨rfl, by norm_num⟩

/-- Claim C8 as amended: `detectDocumentType` returns the classification
exactly as parsed from the remote response — the confidence number is passed
through without clamping or range validation, so it lies in [0,1] only when
the remote supplies such a value. -/
theorem detect_confidence_passthrough (m : RemoteModel) (text : String)
    (v : Value) (r : ClassificationResult)
    (hresp : m.structuredResponse (renderText documentTypePrompt text)
        .documentTypeTag = .ok v)
    (hparse : parseClassification v = some r) :
    (detectDocumentType m text).fst = .ok r := by
  simp [detectDocumentType, hresp, hparse]

/-- Witness for the amended C8: the out-of-range confidence 2 is returned
as supplied. -/
theorem detect_confidence_passthrough_witness :
    (detectDocumentType overconfidentModel "y").fst =
      .ok ⟨"invoice", 2, "certain"⟩ :=
  detect_confidence_passthrough overconfidentModel "y" _ _ rfl rfl
